import Mathlib

set_option maxRecDepth 8000

/-!
# Face-Attendance anti-spoofing / liveness core: a shallow embedding

This file embeds the anti-spoofing module (`detectSpoofing`, `detectBlink`,
`verifyLiveness`) and the recognize-button flow of `app.js` of the
Face-Attendance-System repository, and proves/refutes the frozen claims about
them.

Conventions of the embedding:
* JS numbers are modelled as exact rationals (`ℚ`) where the source only
  adds, multiplies, divides and compares, and as reals (`ℝ`) where the source
  takes square roots (`Math.sqrt` in the eye-aspect-ratio computation).
* The source compares `Math.sqrt s > c` with `s, c ≥ 0`; wherever the session
  logic must stay executable we use the equivalent `s > c^2` and prove the
  equivalence against `Real.sqrt` (`movedMoreThan10_iff_sqrt`,
  `movementBand_iff_sqrt`).
* `null`/`undefined` arguments become `Option`.
* The module-level mutable variable `lastFacePosition` shared by
  `detectSpoofing` and `verifyLiveness` becomes explicit state passing: the
  functions take the stored position and return the updated one.
-/

namespace FaceAttendance

/-- A 2-D point in frame pixel coordinates. -/
structure Point where
  x : ℚ
  y : ℚ
deriving DecidableEq, Repr

/-- A face bounding box, source `detection.detection.box`. -/
structure Box where
  x : ℚ
  y : ℚ
  width : ℚ
  height : ℚ
deriving DecidableEq, Repr

/-- Source: `{ x: box.x + box.width / 2, y: box.y + box.height / 2 }`. -/
def boxCenter (b : Box) : Point :=
  ⟨b.x + b.width / 2, b.y + b.height / 2⟩

/-- Squared Euclidean distance between two points.  The source computes
`Math.sqrt` of this quantity and then compares against a nonnegative
constant; we keep the square and compare against the squared constant
(see `movedMoreThan10_iff_sqrt`). -/
def distSq (p q : Point) : ℚ :=
  (p.x - q.x) ^ 2 + (p.y - q.y) ^ 2

/-- Source (`verifyLiveness`): `movement = Math.sqrt((cx-px)^2 + (cy-py)^2);
movement > 10`.  Modelled as `distSq > 100`, which is equivalent because both
sides of the source comparison are nonnegative. -/
def movedMoreThan10 (c p : Point) : Bool :=
  decide (distSq c p > 100)

/-- The squared-distance form used in the embedding agrees with the
`Math.sqrt` form of the source. -/
theorem movedMoreThan10_iff_sqrt (c p : Point) :
    movedMoreThan10 c p = true ↔
      Real.sqrt ((((c.x - p.x : ℚ) : ℝ)) ^ 2 + (((c.y - p.y : ℚ) : ℝ)) ^ 2) > 10 := by
  rw [movedMoreThan10, decide_eq_true_iff, distSq, gt_iff_lt, gt_iff_lt,
    show ((10 : ℝ)) = Real.sqrt (10 ^ 2) by
      rw [Real.sqrt_sq (by norm_num)]]
  rw [Real.sqrt_lt_sqrt_iff (by norm_num)]
  constructor
  · intro h
    push_cast
    exact_mod_cast h
  · intro h
    exact_mod_cast h

/-! ## SpoofHeuristic: `detectSpoofing` -/

/-- The part of a face-api detection result that `detectSpoofing` reads. -/
structure Detection where
  box : Box
deriving DecidableEq, Repr

/-- The part of the video element that `detectSpoofing` reads. -/
structure Video where
  videoWidth : ℚ
  videoHeight : ℚ
deriving DecidableEq, Repr

/-- The `details` object of the spoof verdict. -/
structure SpoofDetails where
  sizeConsistency : Bool
  positionStability : ℚ
deriving DecidableEq, Repr

/-- The value returned by `detectSpoofing`.  The early-return path of the
source returns `{isSpoofed: false, confidence: 0}` with no `details` field,
hence `details : Option SpoofDetails`. -/
structure SpoofVerdict where
  isSpoofed : Bool
  confidence : ℚ
  details : Option SpoofDetails
deriving DecidableEq, Repr

/-- Source: `faceRatio = (box.width * box.height) / (videoWidth * videoHeight)`. -/
def faceRatio (d : Detection) (v : Video) : ℚ :=
  (d.box.width * d.box.height) / (v.videoWidth * v.videoHeight)

/-- Source function `detectSpoofing(detection, video)`, with the module-level
mutable `lastFacePosition` made explicit: the third argument is the stored
position before the call and the second component of the result is the stored
position after the call.

Source numerics preserved exactly: `sizeConsistency = faceRatio > 0.05 &&
faceRatio < 0.4`; `positionStability = movement > 5 && movement < 50 ? 0.8 :
0.3` (modelled by the equivalent squared comparison `25 < distSq < 2500`,
see `movementBand_iff_sqrt`), `1` when no previous position; `spoofScore =
sizeConsistency ? 0.2 : 0.6`; `finalScore = spoofScore * (1 -
positionStability * 0.3)`; `isSpoofed = finalScore > 0.5`. -/
def detectSpoofing (detection : Option Detection) (video : Option Video)
    (lastFacePosition : Option Point) : SpoofVerdict × Option Point :=
  match detection, video with
  | some d, some v =>
    let r := faceRatio d v
    let sizeConsistency : Bool := decide (r > 0.05) && decide (r < 0.4)
    let currentPosition := boxCenter d.box
    let positionStability : ℚ :=
      match lastFacePosition with
      | none => 1
      | some p =>
        if distSq currentPosition p > 25 ∧ distSq currentPosition p < 2500
        then 0.8 else 0.3
    let spoofScore : ℚ := if sizeConsistency then 0.2 else 0.6
    let finalScore := spoofScore * (1 - positionStability * 0.3)
    (⟨decide (finalScore > 0.5), finalScore,
      some ⟨sizeConsistency, positionStability⟩⟩,
     some currentPosition)
  | _, _ => (⟨false, 0, none⟩, lastFacePosition)

/-- The squared-distance band `25 < distSq < 2500` used in the embedding of
`detectSpoofing` agrees with the source's `movement > 5 && movement < 50` on
`movement = Math.sqrt distSq`. -/
theorem movementBand_iff_sqrt (c p : Point) :
    (distSq c p > 25 ∧ distSq c p < 2500) ↔
      (Real.sqrt (((distSq c p : ℚ) : ℝ)) > 5 ∧
       Real.sqrt (((distSq c p : ℚ) : ℝ)) < 50) := by
  have hnn : (0 : ℝ) ≤ ((distSq c p : ℚ) : ℝ) := by
    have : (0 : ℚ) ≤ distSq c p := by
      have h1 : (0 : ℚ) ≤ (c.x - p.x) ^ 2 := sq_nonneg _
      have h2 : (0 : ℚ) ≤ (c.y - p.y) ^ 2 := sq_nonneg _
      rw [distSq]; linarith
    exact_mod_cast this
  constructor
  · rintro ⟨h1, h2⟩
    constructor
    · rw [show ((5 : ℝ)) = Real.sqrt (5 ^ 2) by rw [Real.sqrt_sq (by norm_num)]]
      rw [gt_iff_lt, Real.sqrt_lt_sqrt_iff (by norm_num)]
      norm_num
      exact_mod_cast h1
    · rw [show ((50 : ℝ)) = Real.sqrt (50 ^ 2) by rw [Real.sqrt_sq (by norm_num)]]
      rw [Real.sqrt_lt_sqrt_iff hnn]
      norm_num
      exact_mod_cast h2
  · rintro ⟨h1, h2⟩
    constructor
    · rw [show ((5 : ℝ)) = Real.sqrt (5 ^ 2) by rw [Real.sqrt_sq (by norm_num)],
        gt_iff_lt, Real.sqrt_lt_sqrt_iff (by norm_num)] at h1
      norm_num at h1
      exact_mod_cast h1
    · rw [show ((50 : ℝ)) = Real.sqrt (50 ^ 2) by rw [Real.sqrt_sq (by norm_num)],
        Real.sqrt_lt_sqrt_iff hnn] at h2
      norm_num at h2
      exact_mod_cast h2

/-! ## LivenessTracker: `verifyLiveness`

The per-frame loop body of `verifyLiveness` only uses the detection through
(a) the boolean `detectBlink(detection.landmarks)` and (b) the bounding box.
`SFrame` carries exactly these two values; `toSFrame` (below, after
`detectBlink` is defined) produces an `SFrame` from the raw landmark data, so
the abstraction is connected formally to the blink predicate. -/

/-- What one processed frame of `verifyLiveness` contributes: `blinking` is
the value of `detectBlink(detection.landmarks)` for this frame (see
`toSFrame`), `box` is `detection.detection.box`. -/
structure SFrame where
  blinking : Bool
  box : Box
deriving DecidableEq, Repr

/-- The mutable state of one liveness session: the module-level variables
`blinkCount`, `headMovementDetected`, `lastFacePosition` and the local
`frameCount` of `verifyLiveness`. -/
structure LivenessState where
  blinkCount : ℕ
  headMovementDetected : Bool
  lastFacePosition : Option Point
  frameCount : ℕ
deriving DecidableEq, Repr

/-- One iteration of the `detectLiveness` loop body on a frame whose
detection result is `detection` (`none` when `detectSingleFace` found no
face).  Mirrors the source: `frameCount++`; if a detection is present,
increment `blinkCount` when `isBlinking && frameCount % 5 === 0`, set
`headMovementDetected` when the center moved more than 10 px from
`lastFacePosition`, and overwrite `lastFacePosition` with the current
center. -/
def livenessObserve (st : LivenessState) (detection : Option SFrame) :
    LivenessState :=
  let fc := st.frameCount + 1
  match detection with
  | none => { st with frameCount := fc }
  | some f =>
    let bc := if f.blinking && fc % 5 == 0 then st.blinkCount + 1 else st.blinkCount
    let c := boxCenter f.box
    let hm := st.headMovementDetected ||
      (match st.lastFacePosition with
       | none => false
       | some p => movedMoreThan10 c p)
    ⟨bc, hm, some c, fc⟩

/-- Folding the loop body over a list of per-frame detection results. -/
def observeAll (st : LivenessState) (frames : List (Option SFrame)) :
    LivenessState :=
  frames.foldl livenessObserve st

/-- The object `verifyLiveness` resolves with. -/
structure LivenessVerdict where
  success : Bool
  blinks : ℕ
  headMovement : Bool
deriving DecidableEq, Repr

/-- Source: `const maxFrames = 300`. -/
def maxFrames : ℕ := 300

/-- Source: `const requiredBlinks = 2`. -/
def requiredBlinks : ℕ := 2

/-- Source function `verifyLiveness`: resets `blinkCount`/`headMovementDetected`,
processes at most `maxFrames` frames (the loop resolves as soon as
`frameCount >= maxFrames`; an early stop via `stopLivenessDetection` just
shortens the processed prefix, which is covered by quantifying over all
input lists), and resolves with `success = blinkCount >= requiredBlinks &&
headMovementDetected`.  The source does not reset the module-level
`lastFacePosition`, so its value at session start is a parameter. -/
def verifyLiveness (frames : List (Option SFrame))
    (initLastFacePosition : Option Point) : LivenessVerdict :=
  let st := observeAll ⟨0, false, initLastFacePosition, 0⟩ (frames.take maxFrames)
  ⟨decide (st.blinkCount ≥ requiredBlinks) && st.headMovementDetected,
   st.blinkCount, st.headMovementDetected⟩

/-! ## Blink detection: `detectBlink` over the reals -/

/-- A landmark point; the eye-aspect-ratio computation takes square roots, so
these live in `ℝ`. -/
structure PointR where
  x : ℝ
  y : ℝ

/-- Source (`calculateEAR`): Euclidean distance,
`Math.sqrt((a.y-b.y)^2 + (a.x-b.x)^2)`. -/
noncomputable def distR (a b : PointR) : ℝ :=
  Real.sqrt ((a.y - b.y) ^ 2 + (a.x - b.x) ^ 2)

/-- The two 6-point eye landmark lists, source `landmarks.getLeftEye()` /
`landmarks.getRightEye()`.  Lists of arbitrary length so that malformed
(wrong-cardinality) landmark sets are representable. -/
structure EyeLandmarks where
  left : List PointR
  right : List PointR

/-- Source `calculateEAR(eyePoints)`:
`(dist(p1,p5) + dist(p2,p4)) / (2 * dist(p0,p3))`.  `getD` stands for the JS
index accesses, which are only reached when the list has at least 6 points. -/
noncomputable def calculateEAR (eyePoints : List PointR) : ℝ :=
  (distR (eyePoints.getD 1 ⟨0, 0⟩) (eyePoints.getD 5 ⟨0, 0⟩) +
   distR (eyePoints.getD 2 ⟨0, 0⟩) (eyePoints.getD 4 ⟨0, 0⟩)) /
  (2 * distR (eyePoints.getD 0 ⟨0, 0⟩) (eyePoints.getD 3 ⟨0, 0⟩))

open Classical in
/-- Source function `detectBlink(landmarks)`.
* `landmarks` null ⇒ `false` (source guard `if (!landmarks) return false`).
* An eye list with fewer than 6 points makes the JS index accesses hit
  `undefined` and raise a `TypeError`, which the source catches and turns
  into `false` — modelled by the length guard.
* A zero horizontal distance makes the JS division produce `Infinity` or
  `NaN`, and `Infinity < 0.25` / `NaN < 0.25` are both `false` — modelled by
  the explicit zero-denominator guard (Lean's `x / 0 = 0` would otherwise
  diverge from the IEEE behaviour of the source).
* Otherwise: blink iff the average of the two eye-aspect-ratios is `< 0.25`. -/
noncomputable def detectBlink (landmarks : Option EyeLandmarks) : Bool :=
  match landmarks with
  | none => false
  | some lm =>
    if 6 ≤ lm.left.length ∧ 6 ≤ lm.right.length then
      if distR (lm.left.getD 0 ⟨0, 0⟩) (lm.left.getD 3 ⟨0, 0⟩) = 0 ∨
         distR (lm.right.getD 0 ⟨0, 0⟩) (lm.right.getD 3 ⟨0, 0⟩) = 0 then false
      else decide ((calculateEAR lm.left + calculateEAR lm.right) / 2 < 0.25)
    else false

/-- Bridge between the raw per-frame data and `SFrame`: the `blinking` field
is exactly `detectBlink` of the frame's landmarks. -/
noncomputable def toSFrame (landmarks : Option EyeLandmarks) (box : Box) : SFrame :=
  ⟨detectBlink landmarks, box⟩

/-- One loop iteration of `verifyLiveness` on the raw detection data: `none`
when no face was detected, otherwise the landmark set (possibly malformed)
and the bounding box. -/
noncomputable def observeFrame (st : LivenessState)
    (d : Option (Option EyeLandmarks × Box)) : LivenessState :=
  livenessObserve st (d.map fun p => toSFrame p.1 p.2)

/-! ## Identity matching and the recognize-button flow of `app.js` -/

/-- A face descriptor (128-dim vector in face-api; length unconstrained
here). -/
abbrev Embedding := List ℚ

/-- Squared Euclidean distance between two descriptors. -/
def embDistSq (a b : Embedding) : ℚ :=
  ((List.zip a b).map fun p => (p.1 - p.2) ^ 2).sum

/-- A `LabeledFaceDescriptors` record: one enrolled label with its
descriptor list. -/
structure GalleryEntry where
  label : String
  embeddings : List Embedding

/-- Result of `findBestMatch`: a label (possibly `"unknown"`) and the squared
distance of the best candidate. -/
structure MatchResult where
  label : String
  distanceSq : ℚ
deriving DecidableEq, Repr

/-- Modelled from the spec: `faceapi.FaceMatcher(gallery, 0.6).findBestMatch`
is external library code (face-api.js), not part of this repository; spec
§4.3 describes the matcher: per entry take the minimum distance over the
entry's embeddings, select the globally minimal entry (ties go to the first
in iteration order), and return `"unknown"` when that minimum exceeds the
threshold 0.6.  Distances are carried squared, compared against
`0.6 ^ 2`. -/
def findBestMatch (query : Embedding) (gallery : List GalleryEntry) :
    MatchResult :=
  let cands := gallery.filterMap fun e =>
    ((e.embeddings.map fun emb => embDistSq query emb).min?).map fun dsq =>
      (e.label, dsq)
  match cands with
  | [] => ⟨"unknown", 0⟩
  | c :: cs =>
    let best := cs.foldl (fun acc cand => if cand.2 < acc.2 then cand else acc) c
    if best.2 > (0.6 : ℚ) ^ 2 then ⟨"unknown", best.2⟩ else ⟨best.1, best.2⟩

/-- The possible exits of the recognize-button click handler in `app.js`. -/
inductive RecognizeOutcome where
  | noFace
  | emptyGallery
  | recognized (label : String)
  | notRecognized
deriving DecidableEq, Repr

/-- The recognize-button click handler of `app.js`: capture a descriptor via
`detectFace` (`none` when no face was detected), alert-and-return when the
gallery is empty, otherwise run `findBestMatch` and either mark attendance
(`recognized`) when the best label is not `"unknown"`, or report
`notRecognized`.  The handler invokes neither `verifyLiveness` nor
`detectSpoofing`. -/
def recognizeClick (faceDescriptor : Option Embedding)
    (gallery : List GalleryEntry) : RecognizeOutcome :=
  match faceDescriptor with
  | none => .noFace
  | some d =>
    if gallery.length = 0 then .emptyGallery
    else
      let bestMatch := findBestMatch d gallery
      if bestMatch.label ≠ "unknown" then .recognized bestMatch.label
      else .notRecognized

/-! ## Spec-side definitions (for the refinement claim about the EAR formula)

The spec states the eye-aspect-ratio as
`EAR = (dist(p1,p5) + dist(p2,p4)) / (2 * dist(p0,p3))` with `dist` the
Euclidean distance; these definitions follow the spec's words and are
compared with `calculateEAR`, which is translated from the source. -/

/-- Euclidean distance as written in the spec (x-difference first). -/
noncomputable def distSpec (a b : PointR) : ℝ :=
  Real.sqrt ((a.x - b.x) ^ 2 + (a.y - b.y) ^ 2)

/-- The spec's EAR formula for one 6-point eye. -/
noncomputable def earSpec (pts : List PointR) : ℝ :=
  (distSpec (pts.getD 1 ⟨0, 0⟩) (pts.getD 5 ⟨0, 0⟩) +
   distSpec (pts.getD 2 ⟨0, 0⟩) (pts.getD 4 ⟨0, 0⟩)) /
  (2 * distSpec (pts.getD 0 ⟨0, 0⟩) (pts.getD 3 ⟨0, 0⟩))

/-! ## Auxiliary counting functions and concrete test inputs -/

/-- A run of frames sharing one bounding box, with the per-frame blink
signals given by a list of booleans. -/
def constSeg (box : Box) (bs : List Bool) : List (Option SFrame) :=
  bs.map fun b => some ⟨b, box⟩

/-- How many of the frames in a boolean blink-signal list, processed
starting from absolute frame count `a`, are counted by the debounce rule
(signal true on a frame whose 1-based index is a multiple of 5). -/
def countAligned : ℕ → List Bool → ℕ
  | _, [] => 0
  | a, b :: bs => (if b && ((a + 1) % 5 == 0) then 1 else 0) + countAligned (a + 1) bs

/-- How many of the next `n` frame indices after `a` are multiples of 5. -/
def count5 : ℕ → ℕ → ℕ
  | _, 0 => 0
  | a, n + 1 => (if (a + 1) % 5 == 0 then 1 else 0) + count5 (a + 1) n

/-- A 100×100 box whose center is `(100, 100)`. -/
def box1 : Box := ⟨50, 50, 100, 100⟩

/-- A 100×100 box whose center is `(120, 100)` — 20 px right of `box1`. -/
def box2 : Box := ⟨70, 50, 100, 100⟩

/-- Scenario A blink signal: true exactly at frames 5, 10, ..., 50. -/
def scenarioABlink (k : ℕ) : Bool := decide (k % 5 = 0 ∧ k ≤ 50)

/-- Scenario A frame `k` (1-based): blink signal as above; the face sits at
center `(100, 100)` through frame 100 and at `(120, 100)` from frame 101 on,
so exactly the pair 100/101 exhibits a 20 px movement. -/
def scenarioAFrame (k : ℕ) : Option SFrame :=
  some ⟨scenarioABlink k, if k ≤ 100 then box1 else box2⟩

/-- The 300 frames of end-to-end scenario A. -/
def scenarioAFrames : List (Option SFrame) :=
  (List.range 300).map fun i => scenarioAFrame (i + 1)

/-- The blink signals of scenario A frames 2..100. -/
def bsA : List Bool := (List.range 99).map fun i => scenarioABlink (i + 2)

/-- Ten frames with a continuously-true blink signal and one 20 px head
movement between frames 1 and 2: a minimal successful liveness session. -/
def w1Frames : List (Option SFrame) :=
  some ⟨true, box1⟩ :: some ⟨true, box2⟩ :: constSeg box2 (List.replicate 8 true)

/-- A query descriptor. -/
def demb : Embedding := [0, 0]

/-- A one-entry gallery whose single embedding equals `demb`. -/
def gallery0 : List GalleryEntry := [⟨"alice", [demb]⟩]

/-- A detection whose box is 100×100 at the origin (center `(50, 50)`). -/
def spoofD : Detection := ⟨⟨0, 0, 100, 100⟩⟩

/-- A 200×200 video frame, so `spoofD` has `faceRatio = 1/4`. -/
def spoofV : Video := ⟨200, 200⟩

/-- A detection of a 1×1 box. -/
def boundaryD : Detection := ⟨⟨0, 0, 1, 1⟩⟩

/-- A 20×1 video frame, so `boundaryD` has `faceRatio` exactly `0.05`. -/
def boundaryV : Video := ⟨20, 1⟩

/-- A session state with a stored face position at the origin. -/
def st9 : LivenessState := ⟨0, false, some ⟨0, 0⟩, 0⟩

/-- A 2×2 box whose center `(100, 100)` is far from the origin. -/
def box9 : Box := ⟨99, 99, 2, 2⟩

/-- A closed 6-point eye: the two lid points of each pair coincide
(vertical distances 0) and the corners are 4 apart, so its EAR is 0. -/
def blinkEye : List PointR := [⟨0, 0⟩, ⟨1, 1⟩, ⟨3, 1⟩, ⟨4, 0⟩, ⟨3, 1⟩, ⟨1, 1⟩]

/-- Landmarks with both eyes closed. -/
def blinkLM : EyeLandmarks := ⟨blinkEye, blinkEye⟩

/-! ## Supporting lemmas -/

theorem distSq_self (p : Point) : distSq p p = 0 := by
  simp [distSq]

theorem movedMoreThan10_self (p : Point) : movedMoreThan10 p p = false := by
  simp [movedMoreThan10, distSq_self]

theorem movedMoreThan10_box2_box1 :
    movedMoreThan10 (boxCenter box2) (boxCenter box1) = true := by
  rw [movedMoreThan10, decide_eq_true_iff]
  norm_num [distSq, boxCenter, box1, box2]

theorem observeAll_cons (st : LivenessState) (f : Option SFrame)
    (fs : List (Option SFrame)) :
    observeAll st (f :: fs) = observeAll (livenessObserve st f) fs := rfl

theorem observeAll_append (st : LivenessState) (a b : List (Option SFrame)) :
    observeAll st (a ++ b) = observeAll (observeAll st a) b := by
  simp [observeAll, List.foldl_append]

/-- Folding a run of frames that share one bounding box whose center equals
the stored face position: the movement test fails on every frame, so only the
debounced blink counter and the frame counter change. -/
theorem observeAll_constSeg (box : Box) (bs : List Bool) (st : LivenessState)
    (hlast : st.lastFacePosition = some (boxCenter box)) :
    observeAll st (constSeg box bs) =
      ⟨st.blinkCount + countAligned st.frameCount bs, st.headMovementDetected,
       some (boxCenter box), st.frameCount + bs.length⟩ := by
  induction bs generalizing st with
  | nil =>
    simp [observeAll, constSeg, countAligned]
    cases st with
    | mk bc hm lf fc => simpa using hlast
  | cons b bs ih =>
    rw [constSeg, List.map_cons, observeAll_cons]
    have hstep : livenessObserve st (some ⟨b, box⟩) =
        ⟨st.blinkCount + (if b && ((st.frameCount + 1) % 5 == 0) then 1 else 0),
         st.headMovementDetected, some (boxCenter box), st.frameCount + 1⟩ := by
      simp only [livenessObserve, hlast, movedMoreThan10_self, Bool.or_false]
      split <;> simp
    rw [hstep]
    rw [show (bs.map fun b => some (⟨b, box⟩ : SFrame)) = constSeg box bs from rfl]
    rw [ih _ rfl]
    simp [countAligned]
    omega

/-- Scenario A, decomposed into its constant-box segments. -/
theorem scenarioA_decomp :
    scenarioAFrames =
      scenarioAFrame 1 ::
        (constSeg box1 bsA ++
          scenarioAFrame 101 :: constSeg box2 (List.replicate 199 false)) := by
  rfl

theorem countAligned_bsA : countAligned 1 bsA = 10 := by decide

theorem countAligned_replicate_false (a n : ℕ) :
    countAligned a (List.replicate n false) = 0 := by
  induction n generalizing a with
  | zero => rfl
  | succ n ih => simp [List.replicate, countAligned, ih]

theorem h1_step : livenessObserve ⟨0, false, none, 0⟩ (scenarioAFrame 1) =
    ⟨0, false, some (boxCenter box1), 1⟩ := rfl

theorem h101_step :
    livenessObserve ⟨10, false, some (boxCenter box1), 100⟩ (scenarioAFrame 101) =
      ⟨10, true, some (boxCenter box2), 101⟩ := by
  have hf : scenarioAFrame 101 = some ⟨false, box2⟩ := rfl
  rw [hf]
  simp [livenessObserve, movedMoreThan10_box2_box1]

theorem bsA_length : bsA.length = 99 := by simp [bsA]

/-- Running the 300 frames of scenario A: ten debounced blinks are counted
(frames 5, 10, ..., 50 are all debounce-aligned) and the 20 px movement at
frame 101 sets the head-movement flag. -/
theorem scenarioA_run : verifyLiveness scenarioAFrames none = ⟨true, 10, true⟩ := by
  have htake : scenarioAFrames.take maxFrames = scenarioAFrames := by
    apply List.take_of_length_le
    simp [scenarioAFrames, maxFrames]
  have hA : observeAll ⟨0, false, none, 0⟩ scenarioAFrames =
      ⟨10, true, some (boxCenter box2), 300⟩ := by
    rw [scenarioA_decomp, observeAll_cons, h1_step, observeAll_append,
      observeAll_constSeg box1 bsA _ rfl, countAligned_bsA, bsA_length]
    norm_num
    rw [observeAll_cons, h101_step,
      observeAll_constSeg box2 (List.replicate 199 false) _ rfl,
      countAligned_replicate_false, List.length_replicate]
  simp only [verifyLiveness]
  rw [htake, hA]
  simp [requiredBlinks]

theorem count5_mod (n a : ℕ) : count5 a n = count5 (a % 5) n := by
  induction n generalizing a with
  | zero => rfl
  | succ n ih =>
    have hcond : ((a + 1) % 5 == 0) = ((a % 5 + 1) % 5 == 0) := by
      have : (a + 1) % 5 = (a % 5 + 1) % 5 := by omega
      rw [this]
    have hrec : count5 (a + 1) n = count5 (a % 5 + 1) n := by
      rw [ih (a + 1), ih (a % 5 + 1)]
      have : (a + 1) % 5 = (a % 5 + 1) % 5 := by omega
      rw [this]
    rw [count5, count5, hcond, hrec]

/-- Any ten consecutive frame indices contain exactly two multiples of 5. -/
theorem count5_ten (a : ℕ) : count5 a 10 = 2 := by
  rw [count5_mod]
  have h : a % 5 = 0 ∨ a % 5 = 1 ∨ a % 5 = 2 ∨ a % 5 = 3 ∨ a % 5 = 4 := by omega
  rcases h with h | h | h | h | h <;> rw [h] <;> decide

theorem observeAll_blinkCount_allTrue (frames : List (Option SFrame))
    (st : LivenessState)
    (h : ∀ f ∈ frames, ∃ sf, f = some sf ∧ sf.blinking = true) :
    (observeAll st frames).blinkCount =
      st.blinkCount + count5 st.frameCount frames.length := by
  induction frames generalizing st with
  | nil => simp [observeAll, count5]
  | cons f fs ih =>
    obtain ⟨sf, rfl, hbl⟩ := h f (List.mem_cons_self f fs)
    rw [observeAll_cons, ih _ (fun g hg => h g (List.mem_cons_of_mem _ hg))]
    rw [List.length_cons, count5]
    simp only [livenessObserve, hbl, Bool.true_and]
    split <;> omega

theorem livenessObserve_mono (st : LivenessState) (f : Option SFrame) :
    st.blinkCount ≤ (livenessObserve st f).blinkCount ∧
      (st.headMovementDetected = true →
        (livenessObserve st f).headMovementDetected = true) := by
  cases f with
  | none => simp [livenessObserve]
  | some sf =>
    constructor
    · simp only [livenessObserve]
      split <;> omega
    · intro h
      simp [livenessObserve, h]

theorem spoof_ratio : faceRatio spoofD spoofV = 1 / 4 := by
  norm_num [faceRatio, spoofD, spoofV]

theorem spoof_conf1 :
    (detectSpoofing (some spoofD) (some spoofV) none).1.confidence = 7 / 50 := by
  have hb1 : decide (faceRatio spoofD spoofV > 0.05) = true :=
    decide_eq_true (by rw [spoof_ratio]; norm_num)
  have hb2 : decide (faceRatio spoofD spoofV < 0.4) = true :=
    decide_eq_true (by rw [spoof_ratio]; norm_num)
  simp only [detectSpoofing, hb1, hb2, Bool.and_self, if_true]
  norm_num

theorem spoof_conf2 :
    (detectSpoofing (some spoofD) (some spoofV)
      (some (boxCenter spoofD.box))).1.confidence = 91 / 500 := by
  have hb1 : decide (faceRatio spoofD spoofV > 0.05) = true :=
    decide_eq_true (by rw [spoof_ratio]; norm_num)
  have hb2 : decide (faceRatio spoofD spoofV < 0.4) = true :=
    decide_eq_true (by rw [spoof_ratio]; norm_num)
  have hmove : ¬(distSq (boxCenter spoofD.box) (boxCenter spoofD.box) > 25 ∧
      distSq (boxCenter spoofD.box) (boxCenter spoofD.box) < 2500) := by
    rw [distSq_self]
    norm_num
  simp only [detectSpoofing, hb1, hb2, Bool.and_self, if_true, hmove, if_false]
  norm_num

theorem boundary_ratio : faceRatio boundaryD boundaryV = 0.05 := by
  norm_num [faceRatio, boundaryD, boundaryV]

theorem distSpec_eq_distR (a b : PointR) : distSpec a b = distR a b := by
  rw [distSpec, distR, add_comm]

/-- The source's inlined EAR formula agrees with the spec's formula. -/
theorem earSpec_eq_calculateEAR (pts : List PointR) :
    earSpec pts = calculateEAR pts := by
  simp [earSpec, calculateEAR, distSpec_eq_distR]

theorem blinkEye_d03 :
    distSpec (blinkEye.getD 0 ⟨0, 0⟩) (blinkEye.getD 3 ⟨0, 0⟩) = 4 := by
  show distSpec ⟨0, 0⟩ ⟨4, 0⟩ = 4
  rw [distSpec]
  norm_num
  rw [show (16 : ℝ) = 4 ^ 2 by norm_num, Real.sqrt_sq (by norm_num : (0:ℝ) ≤ 4)]

theorem blinkEye_ear : earSpec blinkEye = 0 := by
  rw [earSpec]
  rw [show blinkEye.getD 1 ⟨0, 0⟩ = ⟨1, 1⟩ from rfl,
    show blinkEye.getD 5 ⟨0, 0⟩ = ⟨1, 1⟩ from rfl,
    show blinkEye.getD 2 ⟨0, 0⟩ = ⟨3, 1⟩ from rfl,
    show blinkEye.getD 4 ⟨0, 0⟩ = ⟨3, 1⟩ from rfl]
  have hz : ∀ p : PointR, distSpec p p = 0 := by
    intro p
    rw [distSpec]
    norm_num
  rw [hz, hz]
  norm_num

theorem embDistSq_demb : embDistSq demb demb = 0 := by
  norm_num [embDistSq, demb]

theorem findBestMatch_demb : findBestMatch demb gallery0 = ⟨"alice", 0⟩ := by
  rw [findBestMatch]
  simp only [gallery0, List.filterMap_cons, List.filterMap_nil, List.map_cons,
    List.map_nil, List.min?, List.foldl_nil, Option.map_some', embDistSq_demb,
    List.foldl_cons]
  rw [if_neg (by norm_num)]

/-- Running the minimal successful session `w1Frames`. -/
theorem w1_success : (verifyLiveness w1Frames none).success = true := by
  have htake : w1Frames.take maxFrames = w1Frames := by
    apply List.take_of_length_le
    simp [w1Frames, maxFrames, constSeg]
  have hstep1 : livenessObserve ⟨0, false, none, 0⟩ (some ⟨true, box1⟩) =
      ⟨0, false, some (boxCenter box1), 1⟩ := rfl
  have hstep2 : livenessObserve ⟨0, false, some (boxCenter box1), 1⟩
      (some ⟨true, box2⟩) = ⟨0, true, some (boxCenter box2), 2⟩ := by
    simp [livenessObserve, movedMoreThan10_box2_box1]
  have hrun : observeAll ⟨0, false, none, 0⟩ w1Frames =
      ⟨2, true, some (boxCenter box2), 10⟩ := by
    rw [w1Frames, observeAll_cons, hstep1, observeAll_cons, hstep2,
      observeAll_constSeg box2 (List.replicate 8 true) _ rfl, List.length_replicate]
    norm_num
    decide
  simp only [verifyLiveness]
  rw [htake, hrun]
  simp [requiredBlinks]

/-! ## Claim theorems -/

/-- C1: for every input frame sequence (and every initial stored face
position), `verifyLiveness` reports success only when the session counted at
least `requiredBlinks` (2) blinks and detected head movement; it never
returns a success verdict with fewer blinks or without head movement. -/
theorem C1_liveness_success_requires_signals (frames : List (Option SFrame))
    (init : Option Point)
    (h : (verifyLiveness frames init).success = true) :
    requiredBlinks ≤ (verifyLiveness frames init).blinks ∧
      (verifyLiveness frames init).headMovement = true := by
  simp only [verifyLiveness, Bool.and_eq_true, decide_eq_true_eq] at h ⊢
  exact ⟨h.1, h.2⟩

/-- C1 witness: a concrete successful ten-frame session with two counted
blinks and one 20 px head movement. -/
theorem C1_liveness_success_requires_signals_witness :
    requiredBlinks ≤ (verifyLiveness w1Frames none).blinks ∧
      (verifyLiveness w1Frames none).headMovement = true :=
  C1_liveness_success_requires_signals w1Frames none w1_success

/-- C2 counterexample: `detectSpoofing` is not stateless-per-call.  A call
with both arguments present overwrites the stored `lastFacePosition`
(first conjunct), and a second call with the identical explicit arguments
returns a different verdict (confidence 0.14 on the first call versus 0.182
on the second), because the result depends on that module-level state. -/
theorem C2_spoof_hidden_state_counterexample :
    (detectSpoofing (some spoofD) (some spoofV) none).2 ≠ none ∧
    (detectSpoofing (some spoofD) (some spoofV) none).1 ≠
      (detectSpoofing (some spoofD) (some spoofV)
        ((detectSpoofing (some spoofD) (some spoofV) none).2)).1 := by
  constructor
  · rw [show (detectSpoofing (some spoofD) (some spoofV) none).2 =
        some (boxCenter spoofD.box) from rfl]
    simp
  · intro h
    have hc := congrArg SpoofVerdict.confidence h
    rw [spoof_conf1] at hc
    have h2 : (detectSpoofing (some spoofD) (some spoofV) none).2 =
        some (boxCenter spoofD.box) := rfl
    rw [h2, spoof_conf2] at hc
    norm_num at hc

/-- C2 (amended): the spoof scorer reads and writes the module-level
`lastFacePosition` rather than taking the previous center as a parameter:
its verdict is a deterministic function of (detection, video, stored
position), and every call with both arguments present overwrites the stored
position with the current box center, so two calls with identical explicit
arguments may return different verdicts. -/
theorem C2_spoof_state_update (d : Detection) (v : Video) (s : Option Point) :
    (detectSpoofing (some d) (some v) s).2 = some (boxCenter d.box) := rfl

/-- C3 counterexample: the recognize-button flow performs no liveness
verification before matching.  A frame stream with no detections at all
fails liveness (first conjunct), yet the recognize handler — which consumes
no liveness information whatsoever — still returns a `recognized` outcome
for a matching descriptor (second conjunct).  The handler also has outcomes
(`noFace`, `emptyGallery`) outside the four claimed ones and never produces
`spoof_rejected` or `liveness_failed`. -/
theorem C3_no_liveness_gate_counterexample :
    (verifyLiveness (List.replicate 5 none) none).success = false ∧
    recognizeClick (some demb) gallery0 = RecognizeOutcome.recognized "alice" := by
  constructor
  · rfl
  · simp only [recognizeClick]
    rw [if_neg (by simp [gallery0]), findBestMatch_demb]
    rw [if_pos (by decide)]

/-- C3 (amended): the recognize click handler sequences capture and matching
only, with no liveness or spoof step: it returns `noFace` when no descriptor
was captured, `emptyGallery` when the gallery is empty, and otherwise
`recognized`/`notRecognized` according to the best match's label. -/
theorem C3_recognize_flow (d : Embedding) (g : List GalleryEntry) :
    recognizeClick none g = RecognizeOutcome.noFace ∧
    (g = [] → recognizeClick (some d) g = RecognizeOutcome.emptyGallery) ∧
    (g ≠ [] → recognizeClick (some d) g =
      (if (findBestMatch d g).label ≠ "unknown"
       then RecognizeOutcome.recognized (findBestMatch d g).label
       else RecognizeOutcome.notRecognized)) := by
  refine ⟨rfl, ?_, ?_⟩
  · rintro rfl
    rfl
  · intro h
    have hlen : g.length ≠ 0 := by
      simpa [List.length_eq_zero] using h
    simp only [recognizeClick]
    rw [if_neg hlen]

/-- C3 witness: the three branches of the handler at concrete inputs. -/
theorem C3_recognize_flow_witness :
    recognizeClick none gallery0 = RecognizeOutcome.noFace ∧
    recognizeClick (some demb) [] = RecognizeOutcome.emptyGallery ∧
    recognizeClick (some demb) gallery0 = RecognizeOutcome.recognized "alice" := by
  refine ⟨(C3_recognize_flow demb gallery0).1,
    (C3_recognize_flow demb []).2.1 rfl, ?_⟩
  have h := (C3_recognize_flow demb gallery0).2.2 (by simp [gallery0])
  rw [h, findBestMatch_demb]
  rw [if_pos (by decide)]

/-- C4 counterexample: on the scenario-A frames (blink predicate true
exactly at the debounce-aligned frames 5, 10, ..., 50; one 20 px movement
between frames 100 and 101) the verdict's blink count is not 2 — every one
of the ten aligned blink frames is counted, giving 10. -/
theorem C4_scenarioA_counterexample :
    (verifyLiveness scenarioAFrames none).blinks ≠ 2 := by
  rw [scenarioA_run]
  decide

/-- C4 (amended): on the scenario-A frames the final verdict is
`{success: true, blinks: 10, headMovement: true}` — the ten blink frames at
indices 5, 10, ..., 50 are all debounce-aligned, so each increments the
counter. -/
theorem C4_scenarioA_verdict :
    verifyLiveness scenarioAFrames none = ⟨true, 10, true⟩ := scenarioA_run

/-- C5: blink counting is debounced on frame index mod 5.  First conjunct: a
frame whose (1-based) index is not a multiple of 5 never increments the blink
count, whatever its blink signal.  Second conjunct: a blink predicate held
true across any 10 consecutive observed frames increments `blinkCount` by
exactly 2, never by 10. -/
theorem C5_blink_debounce :
    (∀ (st : LivenessState) (f : SFrame),
        (st.frameCount + 1) % 5 ≠ 0 →
        (livenessObserve st (some f)).blinkCount = st.blinkCount) ∧
    (∀ (st : LivenessState) (frames : List (Option SFrame)),
        frames.length = 10 →
        (∀ f ∈ frames, ∃ sf, f = some sf ∧ sf.blinking = true) →
        (observeAll st frames).blinkCount = st.blinkCount + 2) := by
  constructor
  · intro st f h
    have hb : ((st.frameCount + 1) % 5 == 0) = false := by
      simpa using h
    simp [livenessObserve, hb]
  · intro st frames hlen hall
    rw [observeAll_blinkCount_allTrue frames st hall, hlen, count5_ten]

/-- C5 witness: frame 1 (not aligned) adds no blink; ten consecutive
all-blinking frames from a fresh session add exactly 2. -/
theorem C5_blink_debounce_witness :
    (livenessObserve ⟨0, false, none, 0⟩ (some ⟨true, box1⟩)).blinkCount = 0 ∧
    (observeAll ⟨0, false, none, 0⟩
      (List.replicate 10 (some ⟨true, box1⟩))).blinkCount = 0 + 2 := by
  constructor
  · exact C5_blink_debounce.1 ⟨0, false, none, 0⟩ ⟨true, box1⟩ (by decide)
  · refine C5_blink_debounce.2 ⟨0, false, none, 0⟩ _ (by simp) ?_
    intro f hf
    rw [List.eq_of_mem_replicate hf]
    exact ⟨⟨true, box1⟩, rfl, rfl⟩

/-- C6: for well-formed landmarks (6 points per eye, eye corners distinct so
the horizontal distances are nonzero), `detectBlink` reports a blink exactly
when the average of the two spec-formula EARs
`(dist(p1,p5) + dist(p2,p4)) / (2 * dist(p0,p3))` is strictly below 0.25. -/
theorem C6_blink_predicate (lm : EyeLandmarks)
    (h1 : lm.left.length = 6) (h2 : lm.right.length = 6)
    (h3 : distSpec (lm.left.getD 0 ⟨0, 0⟩) (lm.left.getD 3 ⟨0, 0⟩) ≠ 0)
    (h4 : distSpec (lm.right.getD 0 ⟨0, 0⟩) (lm.right.getD 3 ⟨0, 0⟩) ≠ 0) :
    (detectBlink (some lm) = true ↔
      (earSpec lm.left + earSpec lm.right) / 2 < 0.25) := by
  rw [distSpec_eq_distR] at h3 h4
  simp only [detectBlink]
  rw [if_pos ⟨by omega, by omega⟩, if_neg (by push_neg; exact ⟨h3, h4⟩),
    decide_eq_true_iff, earSpec_eq_calculateEAR, earSpec_eq_calculateEAR]

/-- C6 witness: a fully closed pair of eyes (EAR 0 on both sides) is
reported as a blink. -/
theorem C6_blink_predicate_witness : detectBlink (some blinkLM) = true := by
  have h3 : distSpec (blinkLM.left.getD 0 ⟨0, 0⟩) (blinkLM.left.getD 3 ⟨0, 0⟩) ≠ 0 := by
    show distSpec (blinkEye.getD 0 ⟨0, 0⟩) (blinkEye.getD 3 ⟨0, 0⟩) ≠ 0
    rw [blinkEye_d03]
    norm_num
  refine (C6_blink_predicate blinkLM rfl rfl h3 h3).mpr ?_
  show (earSpec blinkEye + earSpec blinkEye) / 2 < 0.25
  rw [blinkEye_ear]
  norm_num

/-- C7: for every detection and video, the verdict's `sizeConsistency` is
the boolean of `0.05 < faceRatio < 0.4` (first conjunct, stated as the
source's two strict comparisons), hence it is true exactly on the open
interval (second conjunct) and false at the boundary values 0.05 and 0.4
(third conjunct). -/
theorem C7_sizeConsistency_open_interval (d : Detection) (v : Video)
    (s : Option Point) :
    ((detectSpoofing (some d) (some v) s).1.details.map SpoofDetails.sizeConsistency =
      some (decide (faceRatio d v > 0.05) && decide (faceRatio d v < 0.4))) ∧
    (faceRatio d v > 0.05 ∧ faceRatio d v < 0.4 →
      (detectSpoofing (some d) (some v) s).1.details.map SpoofDetails.sizeConsistency =
        some true) ∧
    (faceRatio d v = 0.05 ∨ faceRatio d v = 0.4 →
      (detectSpoofing (some d) (some v) s).1.details.map SpoofDetails.sizeConsistency =
        some false) := by
  refine ⟨rfl, ?_, ?_⟩
  · rintro ⟨h1, h2⟩
    simp [detectSpoofing, h1, h2]
  · rintro (h | h) <;> simp [detectSpoofing, h]

/-- C7 witness: a 1×1 box in a 20×1 frame has `faceRatio` exactly 0.05, and
its `sizeConsistency` is false. -/
theorem C7_sizeConsistency_open_interval_witness :
    (detectSpoofing (some boundaryD) (some boundaryV) none).1.details.map
      SpoofDetails.sizeConsistency = some false :=
  (C7_sizeConsistency_open_interval boundaryD boundaryV none).2.2
    (Or.inl boundary_ratio)

/-- C8: within a session, `blinkCount` is monotonically non-decreasing over
any observed frame sequence, and `headMovementDetected`, once true, remains
true. -/
theorem C8_session_monotone (st : LivenessState)
    (frames : List (Option SFrame)) :
    st.blinkCount ≤ (observeAll st frames).blinkCount ∧
      (st.headMovementDetected = true →
        (observeAll st frames).headMovementDetected = true) := by
  induction frames generalizing st with
  | nil => simp [observeAll]
  | cons f fs ih =>
    rw [observeAll_cons]
    obtain ⟨h1, h2⟩ := livenessObserve_mono st f
    obtain ⟨h3, h4⟩ := ih (livenessObserve st f)
    exact ⟨le_trans h1 h3, fun h => h4 (h2 h)⟩

/-- C8 witness: from a state with the flag already set, one more frame keeps
the count non-decreasing and the flag set. -/
theorem C8_session_monotone_witness :
    (⟨0, true, none, 0⟩ : LivenessState).blinkCount ≤
        (observeAll ⟨0, true, none, 0⟩ [none]).blinkCount ∧
      (observeAll ⟨0, true, none, 0⟩ [none]).headMovementDetected = true :=
  ⟨(C8_session_monotone ⟨0, true, none, 0⟩ [none]).1,
   (C8_session_monotone ⟨0, true, none, 0⟩ [none]).2 rfl⟩

/-- C9 counterexample: a frame whose detection is present but whose landmark
set has the wrong cardinality (empty eye lists) is not treated as "no
detection": the movement update still runs, setting `headMovementDetected`
and overwriting `lastFacePosition`, contrary to the claim that no
blink/movement state update occurs. -/
theorem C9_movement_update_counterexample :
    (observeFrame st9 (some (some ⟨[], []⟩, box9))).headMovementDetected = true ∧
    (observeFrame st9 (some (some ⟨[], []⟩, box9))).lastFacePosition ≠
      st9.lastFacePosition := by
  have hblink : detectBlink (some ⟨[], []⟩) = false := by
    simp only [detectBlink]
    rw [if_neg (by simp)]
  have hmoved : movedMoreThan10 (boxCenter box9) ⟨0, 0⟩ = true :=
    decide_eq_true (by norm_num [distSq, boxCenter, box9])
  constructor
  · simp [observeFrame, toSFrame, hblink, livenessObserve, st9, hmoved]
  · simp only [observeFrame, Option.map_some', toSFrame, hblink, livenessObserve, st9]
    intro h
    have := Option.some.inj h
    have hx := congrArg Point.x this
    norm_num [boxCenter, box9] at hx

/-- C9 (amended): missing landmarks, or eye lists with fewer than the
required 6 points, make the blink predicate return false rather than raise,
so such a frame never increments the blink count; a frame with no detection
at all changes nothing but the frame counter; but when a detection is
present, malformed landmarks do not suppress the movement update. -/
theorem C9_malformed_landmarks (lm : EyeLandmarks) (st : LivenessState)
    (b : Box) :
    detectBlink none = false ∧
    (lm.left.length < 6 ∨ lm.right.length < 6 → detectBlink (some lm) = false) ∧
    observeFrame st none = { st with frameCount := st.frameCount + 1 } ∧
    (lm.left.length < 6 ∨ lm.right.length < 6 →
      (observeFrame st (some (some lm, b))).blinkCount = st.blinkCount) := by
  have hfalse : lm.left.length < 6 ∨ lm.right.length < 6 →
      detectBlink (some lm) = false := by
    intro h
    simp only [detectBlink]
    rw [if_neg (by omega)]
  refine ⟨rfl, hfalse, rfl, ?_⟩
  intro h
  simp [observeFrame, toSFrame, livenessObserve, hfalse h]

/-- C9 witness: empty eye lists yield no blink and leave the blink count
unchanged. -/
theorem C9_malformed_landmarks_witness :
    detectBlink (some ⟨[], []⟩) = false ∧
      (observeFrame st9 (some (some ⟨[], []⟩, box9))).blinkCount = st9.blinkCount :=
  ⟨(C9_malformed_landmarks ⟨[], []⟩ st9 box9).2.1 (Or.inl (by simp)),
   (C9_malformed_landmarks ⟨[], []⟩ st9 box9).2.2.2 (Or.inl (by simp))⟩

/-- C10: when the detection or the video argument is absent,
`detectSpoofing` returns `{isSpoofed: false, confidence: 0}` (with no
details) and leaves the stored last face position untouched. -/
theorem C10_missing_inputs (d : Option Detection) (v : Option Video)
    (s : Option Point) (h : d = none ∨ v = none) :
    detectSpoofing d v s = (⟨false, 0, none⟩, s) := by
  rcases h with rfl | rfl
  · cases v <;> rfl
  · cases d <;> rfl

/-- C10 witness: a missing detection with a present video and a stored
position returns the zero verdict and keeps the stored position. -/
theorem C10_missing_inputs_witness :
    detectSpoofing none (some spoofV) (some ⟨3, 4⟩) =
      (⟨false, 0, none⟩, some ⟨3, 4⟩) :=
  C10_missing_inputs none (some spoofV) (some ⟨3, 4⟩) (Or.inl rfl)

end FaceAttendance
